import Mathlib

/-!
Shallow embedding of the movie-backend account service (`src/app1.py`).

The backing JSON file holds a document `{"users": {id: record}}`.  Python
dicts preserve insertion order, so the `users` mapping is modelled as an
insertion-ordered association list.  Each Flask endpoint is modelled as a
function from the current `users` mapping plus the request fields to a
response and the (possibly updated) mapping; `write_users_data` is the
identity on our state, so the returned mapping is the persisted document.

Request fields model `data.get(key)`: `none` when the key is absent.
Python truthiness for these strings ( `if not x` ) is `truthy` below.
-/

namespace MovieBackend

/-- A user record as stored in the JSON document (`register`, lines 73-82). -/
structure UserRecord where
  id : String
  email : String
  username : String
  img_url : String
  password : String
  favorites : List String
  watchlist : List String
  purchases : List String
deriving Repr, DecidableEq

/-- The `users` mapping of the document: insertion-ordered key/value pairs,
mirroring a Python dict. -/
abbrev Doc := List (String × UserRecord)

/-- Python truthiness of an optional string: `None` and `""` are falsy. -/
def truthy : Option String → Bool
  | none => false
  | some s => s ≠ ""

/-- Lookup `users.get(user_id)`: first binding of the key, if any. -/
def dictGet (d : Doc) (k : String) : Option UserRecord :=
  (d.find? (fun p => p.1 == k)).map Prod.snd

/-- Assignment `users[user_id] = record`: replace in place when the key is present
(Python dicts keep the original position), append otherwise. -/
def dictSet : Doc → String → UserRecord → Doc
  | [], k, v => [(k, v)]
  | (k', v') :: rest, k, v =>
    if k' == k then (k, v) :: rest else (k', v') :: dictSet rest k v

/-- Deterministic model of werkzeug's salted hash: all the code relies on is
that verification succeeds exactly for the registered password. -/
def generate_password_hash (p : String) : String := "pbkdf2:" ++ p

/-- Model of `check_password_hash`. -/
def check_password_hash (h p : String) : Bool := h == generate_password_hash p

/-- Response bodies produced by the endpoints (`jsonify(...)` payloads). -/
inductive Body where
  | err (msg : String)
  | msg (m : String)
  | msgUser (m username user_id : String)
  | accountView (username img_url : String) (isLoggedIn : Bool)
      (favorites watchlist purchases : List String)
  | listsView (favorites watchlist purchases : List String)
  | msgImg (m img_url : String)
deriving Repr, DecidableEq

/-- An endpoint response: body plus HTTP status, as in `return jsonify(b), s`. -/
abbrev Response := Body × Nat

/-- Endpoint `POST /register` (app1.py lines 46-88).  `freshId` stands for the
`str(uuid.uuid4())` generated on the success path. -/
def register (users : Doc) (email? username? password? img? : Option String)
    (freshId : String) : Response × Doc :=
  let img_url := img?.getD ""
  if ¬ (truthy email? ∧ truthy username? ∧ truthy password?) then
    ((Body.err "Missing required fields", 400), users)
  else
    let email := email?.getD ""
    let password := password?.getD ""
    let username := username?.getD ""
    if users.any (fun p => p.2.email == email) then
      ((Body.err "Email already registered", 400), users)
    else if ¬ (email.data.contains '@' ∧ email.data.contains '.') then
      ((Body.err "Invalid email format", 400), users)
    else if password.length < 6 then
      ((Body.err "Password must be at least 6 characters", 400), users)
    else
      let record : UserRecord :=
        { id := freshId, email := email, username := username,
          img_url := img_url, password := generate_password_hash password,
          favorites := [], watchlist := [], purchases := [] }
      ((Body.msgUser "Registration successful" username freshId, 201),
        dictSet users freshId record)

/-- Endpoint `POST /login` (app1.py lines 90-117).  Never writes the document. -/
def login (users : Doc) (email? password? : Option String) : Response :=
  if ¬ (truthy email? ∧ truthy password?) then
    (Body.err "Missing required fields", 400)
  else
    let email := email?.getD ""
    let password := password?.getD ""
    match users.find? (fun p => p.2.email == email) with
    | none => (Body.err "Invalid email or password", 401)
    | some (uid, u) =>
      if check_password_hash u.password password then
        (Body.msgUser "Login successful" u.username uid, 200)
      else
        (Body.err "Invalid email or password", 401)

/-- Endpoint `POST /logout` (app1.py lines 119-123): stateless no-op. -/
def logout : Response := (Body.msg "Logged out successfully", 200)

/-- Endpoint `GET /account` (app1.py lines 125-164). -/
def account (users : Doc) (user_id? : Option String) : Response :=
  if ¬ truthy user_id? then
    (Body.accountView "Guest" "" false [] [] [], 200)
  else
    let user_id := user_id?.getD ""
    match dictGet users user_id with
    | none => (Body.accountView "Guest" "" false [] [] [], 200)
    | some u =>
      (Body.accountView u.username u.img_url true u.favorites u.watchlist u.purchases, 200)

/-- Endpoint `POST /favorites` (app1.py lines 166-202): toggle membership. -/
def toggle_favorite (users : Doc) (movie_id? user_id? : Option String) :
    Response × Doc :=
  if ¬ truthy movie_id? then ((Body.err "Missing movie_id", 400), users)
  else if ¬ truthy user_id? then ((Body.err "Missing user_id", 400), users)
  else
    let movie_id := movie_id?.getD ""
    let user_id := user_id?.getD ""
    match dictGet users user_id with
    | none => ((Body.err "User not found. Please log in again.", 404), users)
    | some u =>
      if movie_id ∈ u.favorites then
        ((Body.msg "Movie removed to favorites", 200),
          dictSet users user_id { u with favorites := u.favorites.erase movie_id })
      else
        ((Body.msg "Movie added to favorites", 200),
          dictSet users user_id { u with favorites := u.favorites ++ [movie_id] })

/-- Endpoint `POST /watchlist` (app1.py lines 204-241): toggle membership. -/
def toggle_watchlist (users : Doc) (movie_id? user_id? : Option String) :
    Response × Doc :=
  if ¬ truthy movie_id? then ((Body.err "Missing movie_id", 400), users)
  else if ¬ truthy user_id? then ((Body.err "Missing user_id", 400), users)
  else
    let movie_id := movie_id?.getD ""
    let user_id := user_id?.getD ""
    match dictGet users user_id with
    | none => ((Body.err "User not found. Please log in again.", 404), users)
    | some u =>
      if movie_id ∈ u.watchlist then
        ((Body.msg "Movie removed to watchlist", 200),
          dictSet users user_id { u with watchlist := u.watchlist.erase movie_id })
      else
        ((Body.msg "Movie added to watchlist", 200),
          dictSet users user_id { u with watchlist := u.watchlist ++ [movie_id] })

/-- Endpoint `POST /purchases` (app1.py lines 243-276): insert-only, duplicates rejected. -/
def add_purchase (users : Doc) (movie_id? user_id? : Option String) :
    Response × Doc :=
  if ¬ truthy movie_id? then ((Body.err "Missing movie_id", 400), users)
  else if ¬ truthy user_id? then ((Body.err "Missing user_id", 400), users)
  else
    let movie_id := movie_id?.getD ""
    let user_id := user_id?.getD ""
    match dictGet users user_id with
    | none => ((Body.err "User not found. Please log in again.", 404), users)
    | some u =>
      if movie_id ∈ u.purchases then
        ((Body.err "Movie already purchased", 400), users)
      else
        ((Body.msg "Movie purchased successfully", 200),
          dictSet users user_id { u with purchases := u.purchases ++ [movie_id] })

/-- Endpoint `GET /my_userwatchlist` (app1.py lines 279-305). -/
def my_userwatchlist (users : Doc) (user_id? : Option String) : Response :=
  if ¬ truthy user_id? then (Body.listsView [] [] [], 200)
  else
    let user_id := user_id?.getD ""
    match dictGet users user_id with
    | none => (Body.listsView [] [] [], 200)
    | some u => (Body.listsView u.favorites u.watchlist u.purchases, 200)

/-- Endpoint `POST /update_profile` (app1.py lines 309-335). -/
def update_profile (users : Doc) (user_id? img_url? : Option String) :
    Response × Doc :=
  if ¬ truthy user_id? then ((Body.err "Missing user_id", 400), users)
  else if ¬ truthy img_url? then ((Body.err "Missing img_url", 400), users)
  else
    let user_id := user_id?.getD ""
    let img_url := img_url?.getD ""
    match dictGet users user_id with
    | none => ((Body.err "User not found. Please log in again.", 404), users)
    | some u =>
      ((Body.msgImg "Profile updated successfully" img_url, 200),
        dictSet users user_id { u with img_url := img_url })

/-! ### File-level model of `read_users_data` (app1.py lines 26-36)

`read_users_data` opens the raw file and runs `json.load`, so its behaviour
depends on arbitrary JSON, not only on well-formed documents.  `Json` models
parsed JSON values; `FileState` models the backing file.  Python raises an
uncaught `TypeError` when `"users" not in data` or `data["users"] = ...` is
applied to a non-container / non-dict value, modelled with `Except`. -/

/-- Parsed JSON values. -/
inductive Json where
  | null
  | bool (b : Bool)
  | num (n : Int)
  | str (s : String)
  | arr (elems : List Json)
  | obj (fields : List (String × Json))
deriving Repr, BEq

/-- The backing file: absent, present but not parsable as JSON, or parsed. -/
inductive FileState where
  | absent
  | unparsable
  | valid (j : Json)
deriving Repr

/-- The document returned on the fail-open path: `{"users": {}}`. -/
def emptyUsersDoc : Json := Json.obj [("users", Json.obj [])]

/-- Python `"users" in data` for a parsed JSON value: key membership for a
dict, element membership for a list, substring test for a string, and a
`TypeError` for values that do not support `in`. -/
def pyContainsUsers : Json → Except String Bool
  | Json.obj fields => Except.ok (fields.any (fun p => p.1 == "users"))
  | Json.arr elems => Except.ok (elems.contains (Json.str "users"))
  | Json.str s => Except.ok ((s.splitOn "users").length ≥ 2)
  | _ => Except.error "TypeError: argument is not iterable"

/-- Function `read_users_data` (app1.py lines 27-36): returns `{"users": {}}` when the
file is absent or `json.load` fails; otherwise ensures a `users` key and
returns the parsed value.  The `Except.error` cases are uncaught Python
exceptions (only `FileNotFoundError` and `JSONDecodeError` are caught). -/
def read_users_data : FileState → Except String Json
  | FileState.absent => Except.ok emptyUsersDoc
  | FileState.unparsable => Except.ok emptyUsersDoc
  | FileState.valid j =>
    match pyContainsUsers j with
    | Except.error e => Except.error e
    | Except.ok true => Except.ok j
    | Except.ok false =>
      match j with
      | Json.obj fields => Except.ok (Json.obj (fields ++ [("users", Json.obj [])]))
      | _ => Except.error "TypeError: object does not support item assignment"

/-! ### Operation sequences (for the reachable-state invariant) -/

/-- One inbound request to any endpoint, with its fields. -/
inductive Op where
  | opRegister (email? username? password? img? : Option String) (freshId : String)
  | opLogin (email? password? : Option String)
  | opLogout
  | opAccount (user_id? : Option String)
  | opUserLists (user_id? : Option String)
  | opToggleFavorite (movie_id? user_id? : Option String)
  | opToggleWatchlist (movie_id? user_id? : Option String)
  | opAddPurchase (movie_id? user_id? : Option String)
  | opUpdateProfile (user_id? img_url? : Option String)
deriving Repr

/-- Effect of one request on the persisted document. -/
def applyOp (users : Doc) : Op → Doc
  | Op.opRegister e u p i f => (register users e u p i f).2
  | Op.opLogin _ _ => users
  | Op.opLogout => users
  | Op.opAccount _ => users
  | Op.opUserLists _ => users
  | Op.opToggleFavorite m u => (toggle_favorite users m u).2
  | Op.opToggleWatchlist m u => (toggle_watchlist users m u).2
  | Op.opAddPurchase m u => (add_purchase users m u).2
  | Op.opUpdateProfile u i => (update_profile users u i).2

/-- Document reached from the empty document by a request sequence. -/
def runOps (ops : List Op) : Doc := ops.foldl applyOp []

/-- Every user record's three lists are free of duplicates. -/
def listsNodup (users : Doc) : Prop :=
  ∀ p ∈ users, p.2.favorites.Nodup ∧ p.2.watchlist.Nodup ∧ p.2.purchases.Nodup

/-! ### Helper lemmas about the association-list document -/

theorem dictGet_dictSet_self (d : Doc) (k : String) (v : UserRecord) :
    dictGet (dictSet d k v) k = some v := by
  induction d with
  | nil => simp [dictGet, dictSet, List.find?]
  | cons hd tl ih =>
    obtain ⟨k', v'⟩ := hd
    by_cases hk : k' = k
    · simp [dictSet, hk, dictGet, List.find?]
    · have hstep : dictSet ((k', v') :: tl) k v = (k', v') :: dictSet tl k v := by
        simp [dictSet, hk]
      rw [hstep]
      unfold dictGet
      rw [List.find?_cons_of_neg _ (by simp [hk])]
      exact ih

theorem mem_dictSet (d : Doc) (k : String) (v : UserRecord)
    (p : String × UserRecord) (hp : p ∈ dictSet d k v) :
    p = (k, v) ∨ p ∈ d := by
  induction d with
  | nil => simpa [dictSet] using hp
  | cons hd tl ih =>
    obtain ⟨k', v'⟩ := hd
    by_cases hk : k' = k
    · rw [show dictSet ((k', v') :: tl) k v = (k, v) :: tl by simp [dictSet, hk]] at hp
      rw [List.mem_cons] at hp
      rcases hp with h | h
      · exact Or.inl h
      · exact Or.inr (List.mem_cons_of_mem _ h)
    · rw [show dictSet ((k', v') :: tl) k v = (k', v') :: dictSet tl k v by
        simp [dictSet, hk]] at hp
      rw [List.mem_cons] at hp
      rcases hp with h | h
      · exact Or.inr (h ▸ List.mem_cons_self _ _)
      · rcases ih h with h' | h'
        · exact Or.inl h'
        · exact Or.inr (List.mem_cons_of_mem _ h')

theorem find?_dictSet_of_not_elsewhere (d : Doc) (k : String) (v : UserRecord)
    (pred : String × UserRecord → Bool)
    (hnone : ∀ p ∈ d, pred p = false) (hv : pred (k, v) = true) :
    (dictSet d k v).find? pred = some (k, v) := by
  induction d with
  | nil => simp [dictSet, List.find?, hv]
  | cons hd tl ih =>
    obtain ⟨k', v'⟩ := hd
    by_cases hk : k' = k
    · simp [dictSet, hk, List.find?, hv]
    · have hhd : pred (k', v') = false := hnone _ (List.mem_cons_self _ _)
      have htl : ∀ p ∈ tl, pred p = false :=
        fun p hp => hnone p (List.mem_cons_of_mem _ hp)
      simp only [dictSet, beq_iff_eq, hk, if_false]
      rw [List.find?_cons_of_neg _ (by simp [hhd])]
      exact ih htl

theorem nodup_append_singleton {l : List String} {m : String}
    (hm : m ∉ l) (hl : l.Nodup) : (l ++ [m]).Nodup := by
  simp [List.nodup_append, hl, hm]

theorem erase_append_singleton_of_not_mem {l : List String} {m : String}
    (hm : m ∉ l) : (l ++ [m]).erase m = l := by
  induction l with
  | nil => simp
  | cons a l ih =>
    have ha : (a == m) = false := by
      simp only [beq_eq_false_iff_ne, ne_eq]
      intro h; exact hm (h ▸ List.mem_cons_self _ _)
    have hm' : m ∉ l := fun h => hm (List.mem_cons_of_mem _ h)
    simp [List.erase_cons, ha, ih hm']

theorem dictGet_mem (d : Doc) (k : String) (u : UserRecord)
    (h : dictGet d k = some u) : (k, u) ∈ d := by
  unfold dictGet at h
  cases hf : d.find? (fun p => p.1 == k) with
  | none => rw [hf] at h; simp at h
  | some q =>
    rw [hf] at h
    obtain ⟨q1, q2⟩ := q
    have hq : (q1, q2) ∈ d := List.mem_of_find?_eq_some hf
    have hk : q1 = k := by simpa using List.find?_some hf
    have hu : q2 = u := by simpa using h
    rw [← hk, ← hu]
    exact hq

/-! ## Claim theorems -/

/-- C10: `update_profile` treats an empty-string `img_url` exactly like a
missing one: the request fails with the `Missing img_url` validation error
(HTTP 400) and leaves the document unchanged, and no successful call can
carry an empty `img_url`, so a profile image can never be set back to the
empty string it defaults to at registration. -/
theorem update_profile_empty_img_is_missing (users : Doc) (uid : String)
    (h : uid ≠ "") :
    update_profile users (some uid) (some "") = ((Body.err "Missing img_url", 400), users) ∧
    update_profile users (some uid) none = ((Body.err "Missing img_url", 400), users) ∧
    (∀ img : String,
      (update_profile users (some uid) (some img)).1.2 = 200 → img ≠ "") := by
  refine ⟨?_, ?_, ?_⟩
  · simp [update_profile, truthy, h]
  · simp [update_profile, truthy, h]
  · intro img h200 himg
    subst himg
    simp [update_profile, truthy, h] at h200

theorem update_profile_empty_img_is_missing_witness :
    update_profile [] (some "u1") (some "")
      = ((Body.err "Missing img_url", 400), ([] : Doc)) :=
  (update_profile_empty_img_is_missing [] "u1" (by decide)).1

/-- C5: `account` and `my_userwatchlist` never error: whenever the request's
`user_id` is missing, empty, or not a key of the document, both return
HTTP 200 with the anonymous Guest view and empty lists. -/
theorem guest_fallback_never_errors (users : Doc) (user_id? : Option String)
    (h : ∀ uid : String, user_id? = some uid → uid = "" ∨ dictGet users uid = none) :
    account users user_id? = (Body.accountView "Guest" "" false [] [] [], 200) ∧
    my_userwatchlist users user_id? = (Body.listsView [] [] [], 200) := by
  cases user_id? with
  | none => simp [account, my_userwatchlist, truthy]
  | some uid =>
    by_cases he : uid = ""
    · subst he
      simp [account, my_userwatchlist, truthy]
    · rcases h uid rfl with h1 | h1
      · exact absurd h1 he
      · simp [account, my_userwatchlist, truthy, he, h1]

theorem guest_fallback_never_errors_witness :
    account [] (some "ghost") = (Body.accountView "Guest" "" false [] [] [], 200) ∧
    my_userwatchlist [] (some "ghost") = (Body.listsView [] [] [], 200) :=
  guest_fallback_never_errors [] (some "ghost")
    (fun uid h => Or.inr (by cases h; rfl))

/-- C2 counterexample: with `a@b.com` already on file, registering that same
email with a missing password returns the `Missing required fields`
validation error, not the duplicate-email conflict error: the missing-fields
check at line 54 runs before the duplicate scan at lines 61-63. -/
theorem register_conflict_counterexample :
    (register
        [("u1", { id := "u1", email := "a@b.com", username := "al", img_url := "",
                  password := "h", favorites := [], watchlist := [], purchases := [] })]
        (some "a@b.com") (some "bob") none none "u2").1
      = (Body.err "Missing required fields", 400) ∧
    (Body.err "Missing required fields", 400) ≠
      ((Body.err "Email already registered", 400) : Response) := by
  exact ⟨rfl, by decide⟩

/-- C2 (amended): when email, username and password are all present and
non-empty, registering an email already on file always fails with the
duplicate-email conflict (HTTP 400) and leaves the document unchanged —
including a password shorter than 6 characters and an email lacking `@` or
`.`, since the duplicate scan precedes those checks.  A missing or empty
username or password instead hits the `Missing required fields` validation
error first. -/
theorem register_duplicate_email_conflict (users : Doc) (E U P : String)
    (img? : Option String) (fid : String)
    (hE : E ≠ "") (hU : U ≠ "") (hP : P ≠ "")
    (hdup : ∃ p ∈ users, p.2.email = E) :
    register users (some E) (some U) (some P) img? fid
      = ((Body.err "Email already registered", 400), users) := by
  obtain ⟨q, hq, hqe⟩ := hdup
  have hany : users.any (fun p => p.2.email == E) = true :=
    List.any_eq_true.mpr ⟨q, hq, by simp [hqe]⟩
  simp [register, truthy, hE, hU, hP, hany]

theorem register_duplicate_email_conflict_witness :
    register
        [("u1", { id := "u1", email := "ab.com", username := "al", img_url := "",
                  password := "h", favorites := [], watchlist := [], purchases := [] })]
        (some "ab.com") (some "bob") (some "abc") none "u2"
      = ((Body.err "Email already registered", 400),
          [("u1", { id := "u1", email := "ab.com", username := "al", img_url := "",
                    password := "h", favorites := [], watchlist := [], purchases := [] })]) :=
  register_duplicate_email_conflict _ "ab.com" "bob" "abc" none "u2"
    (by decide) (by decide) (by decide)
    ⟨_, List.mem_cons_self _ _, rfl⟩

/-- C3 counterexample: with a registered user on file, supplying that email
with an empty password — which does not verify against the stored hash —
returns the missing-fields validation error (HTTP 400), not the AuthError
(HTTP 401): the `not all` check at line 98 treats an empty string as
missing. -/
theorem login_counterexample :
    check_password_hash (generate_password_hash "secret1") "" = false ∧
    login
        [("u1", { id := "u1", email := "a@b.com", username := "al", img_url := "",
                  password := generate_password_hash "secret1",
                  favorites := [], watchlist := [], purchases := [] })]
        (some "a@b.com") (some "")
      = (Body.err "Missing required fields", 400) := by
  exact ⟨by decide, rfl⟩

/-- C3 (amended): for every non-empty email and non-empty supplied password,
login with a registered email whose stored hash does not verify the password
fails with HTTP 401, and login with an email matching no record fails with
HTTP 401 and the very same error body `Invalid email or password` — the two
failure responses are identical.  An empty supplied email or password instead
hits the `Missing required fields` check (HTTP 400) first. -/
theorem login_uniform_auth_failure (users : Doc) (e p : String)
    (he : e ≠ "") (hp : p ≠ "") :
    (∀ uid u, users.find? (fun q => q.2.email == e) = some (uid, u) →
      check_password_hash u.password p = false →
      login users (some e) (some p) = (Body.err "Invalid email or password", 401)) ∧
    (users.find? (fun q => q.2.email == e) = none →
      login users (some e) (some p) = (Body.err "Invalid email or password", 401)) := by
  constructor
  · intro uid u hfind hchk
    simp [login, truthy, he, hp, hfind, hchk]
  · intro hfind
    simp [login, truthy, he, hp, hfind]

theorem login_uniform_auth_failure_witness :
    login [] (some "a@b.com") (some "secret1")
      = (Body.err "Invalid email or password", 401) :=
  (login_uniform_auth_failure [] "a@b.com" "secret1" (by decide) (by decide)).2 rfl

/-- C9: atomicity on error — whenever `register`, `toggle_favorite`,
`toggle_watchlist`, `add_purchase` or `update_profile` returns a non-success
status (400, 401 or 404), the operation returns before `write_users_data`
is invoked, so the persisted document is exactly unchanged. -/
theorem mutating_ops_error_leaves_doc (users : Doc)
    (e? u? p? i? : Option String) (fid : String)
    (mf? uf? mw? uw? mp? up? uu? iu? : Option String) :
    ((register users e? u? p? i? fid).1.2 ≠ 201 →
      (register users e? u? p? i? fid).2 = users) ∧
    ((toggle_favorite users mf? uf?).1.2 ≠ 200 →
      (toggle_favorite users mf? uf?).2 = users) ∧
    ((toggle_watchlist users mw? uw?).1.2 ≠ 200 →
      (toggle_watchlist users mw? uw?).2 = users) ∧
    ((add_purchase users mp? up?).1.2 ≠ 200 →
      (add_purchase users mp? up?).2 = users) ∧
    ((update_profile users uu? iu?).1.2 ≠ 200 →
      (update_profile users uu? iu?).2 = users) := by
  refine ⟨?_, ?_, ?_, ?_, ?_⟩
  · intro hne
    by_cases h1 : truthy e? = true
    · by_cases h2 : truthy u? = true
      · by_cases h3 : truthy p? = true
        · by_cases h4 : (List.any users fun p => p.2.email == e?.getD "") = true
          · simp [register, h1, h2, h3, h4]
          · by_cases h5 : '@' ∈ (e?.getD "").data
            · by_cases h6 : '.' ∈ (e?.getD "").data
              · by_cases h7 : (p?.getD "").length < 6
                · simp [register, h1, h2, h3, h4, h5, h6, h7]
                · exfalso; apply hne
                  simp [register, h1, h2, h3, h4, h5, h6, h7]
              · simp [register, h1, h2, h3, h4, h5, h6]
            · simp [register, h1, h2, h3, h4, h5]
        · simp [register, h1, h2, h3]
      · simp [register, h1, h2]
    · simp [register, h1]
  · intro hne
    by_cases h1 : truthy mf? = true
    · by_cases h2 : truthy uf? = true
      · cases hu : dictGet users (uf?.getD "") with
        | none => simp [toggle_favorite, h1, h2, hu]
        | some u =>
          exfalso; apply hne
          by_cases hmem : (mf?.getD "") ∈ u.favorites
          · simp [toggle_favorite, h1, h2, hu, hmem]
          · simp [toggle_favorite, h1, h2, hu, hmem]
      · simp [toggle_favorite, h1, h2]
    · simp [toggle_favorite, h1]
  · intro hne
    by_cases h1 : truthy mw? = true
    · by_cases h2 : truthy uw? = true
      · cases hu : dictGet users (uw?.getD "") with
        | none => simp [toggle_watchlist, h1, h2, hu]
        | some u =>
          exfalso; apply hne
          by_cases hmem : (mw?.getD "") ∈ u.watchlist
          · simp [toggle_watchlist, h1, h2, hu, hmem]
          · simp [toggle_watchlist, h1, h2, hu, hmem]
      · simp [toggle_watchlist, h1, h2]
    · simp [toggle_watchlist, h1]
  · intro hne
    by_cases h1 : truthy mp? = true
    · by_cases h2 : truthy up? = true
      · cases hu : dictGet users (up?.getD "") with
        | none => simp [add_purchase, h1, h2, hu]
        | some u =>
          by_cases hmem : (mp?.getD "") ∈ u.purchases
          · simp [add_purchase, h1, h2, hu, hmem]
          · exfalso; apply hne
            simp [add_purchase, h1, h2, hu, hmem]
      · simp [add_purchase, h1, h2]
    · simp [add_purchase, h1]
  · intro hne
    by_cases h1 : truthy uu? = true
    · by_cases h2 : truthy iu? = true
      · cases hu : dictGet users (uu?.getD "") with
        | none => simp [update_profile, h1, h2, hu]
        | some u =>
          exfalso; apply hne
          simp [update_profile, h1, h2, hu]
      · simp [update_profile, h1, h2]
    · simp [update_profile, h1]

theorem mutating_ops_error_leaves_doc_witness :
    (register [] none none none none "x").2 = ([] : Doc) ∧
    (toggle_favorite [] none none).2 = ([] : Doc) ∧
    (toggle_watchlist [] none none).2 = ([] : Doc) ∧
    (add_purchase [] none none).2 = ([] : Doc) ∧
    (update_profile [] none none).2 = ([] : Doc) := by
  have h := mutating_ops_error_leaves_doc []
    none none none none "x" none none none none none none none none
  exact ⟨h.1 (by decide), h.2.1 (by decide), h.2.2.1 (by decide),
    h.2.2.2.1 (by decide), h.2.2.2.2 (by decide)⟩

/-- C1 counterexample: toggling a movie that is present but not last does
not restore the original order.  With favorites `["m1", "m2"]`, toggling
`"m1"` twice yields `["m2", "m1"]`: `remove` deletes the first occurrence
and the re-`append` puts the movie at the end. -/
theorem toggle_twice_counterexample :
    (dictGet
        (toggle_favorite
          (toggle_favorite
            [("u1", { id := "u1", email := "a@b.com", username := "al", img_url := "",
                      password := "h", favorites := ["m1", "m2"], watchlist := [],
                      purchases := [] })]
            (some "m1") (some "u1")).2
          (some "m1") (some "u1")).2 "u1").map UserRecord.favorites
      = some ["m2", "m1"] ∧
    some ["m2", "m1"] ≠ some ["m1", "m2"] := ⟨rfl, by decide⟩

/-- C1 (amended): for a user whose favorites (resp. watchlist) list has no
duplicates, toggling the same movie twice restores the list exactly —
including order — when the movie was initially absent; when it was initially
present the resulting list is a permutation of the original (the same
elements, with the toggled movie moved to the end), so membership but not
necessarily order is restored. -/
theorem toggle_twice_restores_membership (users : Doc) (uid mid : String)
    (u : UserRecord) (hu : uid ≠ "") (hm : mid ≠ "")
    (hget : dictGet users uid = some u)
    (hfav : u.favorites.Nodup) (hwl : u.watchlist.Nodup) :
    (∃ u2, dictGet (toggle_favorite
          (toggle_favorite users (some mid) (some uid)).2
          (some mid) (some uid)).2 uid = some u2 ∧
        u2.favorites.Perm u.favorites ∧
        (mid ∉ u.favorites → u2.favorites = u.favorites)) ∧
    (∃ u2, dictGet (toggle_watchlist
          (toggle_watchlist users (some mid) (some uid)).2
          (some mid) (some uid)).2 uid = some u2 ∧
        u2.watchlist.Perm u.watchlist ∧
        (mid ∉ u.watchlist → u2.watchlist = u.watchlist)) := by
  have hremF : ∀ (d : Doc) (v : UserRecord), dictGet d uid = some v →
      mid ∈ v.favorites →
      (toggle_favorite d (some mid) (some uid)).2
        = dictSet d uid { v with favorites := v.favorites.erase mid } := by
    intro d v hd hv
    simp [toggle_favorite, truthy, hu, hm, hd, hv]
  have haddF : ∀ (d : Doc) (v : UserRecord), dictGet d uid = some v →
      mid ∉ v.favorites →
      (toggle_favorite d (some mid) (some uid)).2
        = dictSet d uid { v with favorites := v.favorites ++ [mid] } := by
    intro d v hd hv
    simp [toggle_favorite, truthy, hu, hm, hd, hv]
  have hremW : ∀ (d : Doc) (v : UserRecord), dictGet d uid = some v →
      mid ∈ v.watchlist →
      (toggle_watchlist d (some mid) (some uid)).2
        = dictSet d uid { v with watchlist := v.watchlist.erase mid } := by
    intro d v hd hv
    simp [toggle_watchlist, truthy, hu, hm, hd, hv]
  have haddW : ∀ (d : Doc) (v : UserRecord), dictGet d uid = some v →
      mid ∉ v.watchlist →
      (toggle_watchlist d (some mid) (some uid)).2
        = dictSet d uid { v with watchlist := v.watchlist ++ [mid] } := by
    intro d v hd hv
    simp [toggle_watchlist, truthy, hu, hm, hd, hv]
  constructor
  · by_cases hmem : mid ∈ u.favorites
    · have h1 := hremF users u hget hmem
      have hget1 : dictGet (toggle_favorite users (some mid) (some uid)).2 uid
          = some { u with favorites := u.favorites.erase mid } := by
        rw [h1]; exact dictGet_dictSet_self _ _ _
      have hmem1 : mid ∉ ({ u with favorites := u.favorites.erase mid } :
          UserRecord).favorites := hfav.not_mem_erase
      have h2 := haddF _ _ hget1 hmem1
      refine ⟨{ u with favorites := u.favorites.erase mid ++ [mid] }, ?_, ?_, ?_⟩
      · rw [h2]; exact dictGet_dictSet_self _ _ _
      · exact (List.perm_append_singleton mid _).trans
          (List.perm_cons_erase hmem).symm
      · intro habs; exact absurd hmem habs
    · have h1 := haddF users u hget hmem
      have hget1 : dictGet (toggle_favorite users (some mid) (some uid)).2 uid
          = some { u with favorites := u.favorites ++ [mid] } := by
        rw [h1]; exact dictGet_dictSet_self _ _ _
      have hmem1 : mid ∈ ({ u with favorites := u.favorites ++ [mid] } :
          UserRecord).favorites := by simp
      have h2 := hremF _ _ hget1 hmem1
      have herase : (u.favorites ++ [mid]).erase mid = u.favorites :=
        erase_append_singleton_of_not_mem hmem
      refine ⟨{ u with favorites := (u.favorites ++ [mid]).erase mid }, ?_, ?_, ?_⟩
      · rw [h2]; exact dictGet_dictSet_self _ _ _
      · show (((u.favorites ++ [mid]).erase mid).Perm u.favorites)
        rw [herase]
      · intro _
        show ((u.favorites ++ [mid]).erase mid) = u.favorites
        rw [herase]
  · by_cases hmem : mid ∈ u.watchlist
    · have h1 := hremW users u hget hmem
      have hget1 : dictGet (toggle_watchlist users (some mid) (some uid)).2 uid
          = some { u with watchlist := u.watchlist.erase mid } := by
        rw [h1]; exact dictGet_dictSet_self _ _ _
      have hmem1 : mid ∉ ({ u with watchlist := u.watchlist.erase mid } :
          UserRecord).watchlist := hwl.not_mem_erase
      have h2 := haddW _ _ hget1 hmem1
      refine ⟨{ u with watchlist := u.watchlist.erase mid ++ [mid] }, ?_, ?_, ?_⟩
      · rw [h2]; exact dictGet_dictSet_self _ _ _
      · exact (List.perm_append_singleton mid _).trans
          (List.perm_cons_erase hmem).symm
      · intro habs; exact absurd hmem habs
    · have h1 := haddW users u hget hmem
      have hget1 : dictGet (toggle_watchlist users (some mid) (some uid)).2 uid
          = some { u with watchlist := u.watchlist ++ [mid] } := by
        rw [h1]; exact dictGet_dictSet_self _ _ _
      have hmem1 : mid ∈ ({ u with watchlist := u.watchlist ++ [mid] } :
          UserRecord).watchlist := by simp
      have h2 := hremW _ _ hget1 hmem1
      have herase : (u.watchlist ++ [mid]).erase mid = u.watchlist :=
        erase_append_singleton_of_not_mem hmem
      refine ⟨{ u with watchlist := (u.watchlist ++ [mid]).erase mid }, ?_, ?_, ?_⟩
      · rw [h2]; exact dictGet_dictSet_self _ _ _
      · show (((u.watchlist ++ [mid]).erase mid).Perm u.watchlist)
        rw [herase]
      · intro _
        show ((u.watchlist ++ [mid]).erase mid) = u.watchlist
        rw [herase]

theorem toggle_twice_restores_membership_witness :
    ∃ u2, dictGet (toggle_favorite
        (toggle_favorite
          [("u1", { id := "u1", email := "a@b.com", username := "al", img_url := "",
                    password := "h", favorites := ["m2"], watchlist := [],
                    purchases := [] })]
          (some "m1") (some "u1")).2
        (some "m1") (some "u1")).2 "u1" = some u2 ∧
      u2.favorites.Perm ["m2"] ∧ ("m1" ∉ (["m2"] : List String) → u2.favorites = ["m2"]) :=
  (toggle_twice_restores_membership
    [("u1", { id := "u1", email := "a@b.com", username := "al", img_url := "",
              password := "h", favorites := ["m2"], watchlist := [],
              purchases := [] })]
    "u1" "m1"
    { id := "u1", email := "a@b.com", username := "al", img_url := "",
      password := "h", favorites := ["m2"], watchlist := [], purchases := [] }
    (by decide) (by decide) rfl (by decide) (by decide)).1

/-- C4: for a user whose purchases do not contain the movie, the first
`add_purchase` succeeds (HTTP 200) and appends the movie; an immediately
repeated call fails with the `Movie already purchased` conflict (HTTP 400)
and leaves the document unchanged, and the append preserves freedom from
duplicates. -/
theorem add_purchase_once_then_conflict (users : Doc) (uid mid : String)
    (u : UserRecord) (hu : uid ≠ "") (hm : mid ≠ "")
    (hget : dictGet users uid = some u) (hmem : mid ∉ u.purchases) :
    (add_purchase users (some mid) (some uid)).1
      = (Body.msg "Movie purchased successfully", 200) ∧
    dictGet (add_purchase users (some mid) (some uid)).2 uid
      = some { u with purchases := u.purchases ++ [mid] } ∧
    (add_purchase (add_purchase users (some mid) (some uid)).2
        (some mid) (some uid)).1
      = (Body.err "Movie already purchased", 400) ∧
    (add_purchase (add_purchase users (some mid) (some uid)).2
        (some mid) (some uid)).2
      = (add_purchase users (some mid) (some uid)).2 ∧
    (u.purchases.Nodup → (u.purchases ++ [mid]).Nodup) := by
  have hstep : ∀ (d : Doc) (v : UserRecord), dictGet d uid = some v →
      mid ∉ v.purchases →
      add_purchase d (some mid) (some uid)
        = ((Body.msg "Movie purchased successfully", 200),
            dictSet d uid { v with purchases := v.purchases ++ [mid] }) := by
    intro d v hd hv
    simp [add_purchase, truthy, hu, hm, hd, hv]
  have hconf : ∀ (d : Doc) (v : UserRecord), dictGet d uid = some v →
      mid ∈ v.purchases →
      add_purchase d (some mid) (some uid)
        = ((Body.err "Movie already purchased", 400), d) := by
    intro d v hd hv
    simp [add_purchase, truthy, hu, hm, hd, hv]
  have h1 := hstep users u hget hmem
  have hget1 : dictGet (add_purchase users (some mid) (some uid)).2 uid
      = some { u with purchases := u.purchases ++ [mid] } := by
    rw [h1]; exact dictGet_dictSet_self _ _ _
  have hmem1 : mid ∈ ({ u with purchases := u.purchases ++ [mid] } :
      UserRecord).purchases := by simp
  have h2 := hconf _ _ hget1 hmem1
  exact ⟨by rw [h1], hget1, by rw [h2], by rw [h2],
    fun hnd => nodup_append_singleton hmem hnd⟩

theorem add_purchase_once_then_conflict_witness :
    (add_purchase
        [("u1", { id := "u1", email := "a@b.com", username := "al", img_url := "",
                  password := "h", favorites := [], watchlist := [],
                  purchases := [] })]
        (some "m1") (some "u1")).1
      = (Body.msg "Movie purchased successfully", 200) :=
  (add_purchase_once_then_conflict
    [("u1", { id := "u1", email := "a@b.com", username := "al", img_url := "",
              password := "h", favorites := [], watchlist := [], purchases := [] })]
    "u1" "m1"
    { id := "u1", email := "a@b.com", username := "al", img_url := "",
      password := "h", favorites := [], watchlist := [], purchases := [] }
    (by decide) (by decide) rfl (by decide)).1

/-- C6: starting from any document with no record for `a@b.com`, the
spec's example flow holds: register returns 201 with the fresh user id,
an immediate login returns 200 with the same user id, toggling `m1` makes
that user's favorites `["m1"]`, and toggling again makes them `[]`. -/
theorem register_login_toggle_example (users : Doc) (fid : String)
    (hfid : fid ≠ "") (hfresh : ∀ p ∈ users, p.2.email ≠ "a@b.com") :
    (register users (some "a@b.com") (some "al") (some "secret1") none fid).1
      = (Body.msgUser "Registration successful" "al" fid, 201) ∧
    login (register users (some "a@b.com") (some "al") (some "secret1") none fid).2
        (some "a@b.com") (some "secret1")
      = (Body.msgUser "Login successful" "al" fid, 200) ∧
    (∃ u1, dictGet (toggle_favorite
          (register users (some "a@b.com") (some "al") (some "secret1") none fid).2
          (some "m1") (some fid)).2 fid = some u1 ∧
        u1.favorites = ["m1"]) ∧
    (∃ u2, dictGet (toggle_favorite (toggle_favorite
          (register users (some "a@b.com") (some "al") (some "secret1") none fid).2
          (some "m1") (some fid)).2 (some "m1") (some fid)).2 fid = some u2 ∧
        u2.favorites = []) := by
  have hany : (users.any fun p => p.2.email == "a@b.com") = false := by
    rw [List.any_eq_false]
    intro p hp
    simpa using hfresh p hp
  have hc1 : "a@b.com".data.contains '@' = true := by decide
  have hc2 : "a@b.com".data.contains '.' = true := by decide
  have hlen : ¬ ("secret1".length < 6) := by decide
  have hreg : register users (some "a@b.com") (some "al") (some "secret1") none fid
      = ((Body.msgUser "Registration successful" "al" fid, 201),
          dictSet users fid
            { id := fid, email := "a@b.com", username := "al", img_url := "",
              password := generate_password_hash "secret1",
              favorites := [], watchlist := [], purchases := [] }) := by
    simp [register, truthy, hany, hc1, hc2, hlen]
  have hfind : ((dictSet users fid
        { id := fid, email := "a@b.com", username := "al", img_url := "",
          password := generate_password_hash "secret1",
          favorites := [], watchlist := [], purchases := [] }).find?
        fun q => q.2.email == "a@b.com")
      = some (fid,
          { id := fid, email := "a@b.com", username := "al", img_url := "",
            password := generate_password_hash "secret1",
            favorites := [], watchlist := [], purchases := [] }) := by
    apply find?_dictSet_of_not_elsewhere
    · intro p hp
      simpa using hfresh p hp
    · simp
  have hstepAdd : ∀ (d : Doc) (v : UserRecord), dictGet d fid = some v →
      "m1" ∉ v.favorites →
      (toggle_favorite d (some "m1") (some fid)).2
        = dictSet d fid { v with favorites := v.favorites ++ ["m1"] } := by
    intro d v hd hv
    simp [toggle_favorite, truthy, hfid, hd, hv]
  have hstepRem : ∀ (d : Doc) (v : UserRecord), dictGet d fid = some v →
      "m1" ∈ v.favorites →
      (toggle_favorite d (some "m1") (some fid)).2
        = dictSet d fid { v with favorites := v.favorites.erase "m1" } := by
    intro d v hd hv
    simp [toggle_favorite, truthy, hfid, hd, hv]
  have hget0 : dictGet (register users (some "a@b.com") (some "al")
        (some "secret1") none fid).2 fid
      = some { id := fid, email := "a@b.com", username := "al", img_url := "",
               password := generate_password_hash "secret1",
               favorites := [], watchlist := [], purchases := [] } := by
    rw [hreg]; exact dictGet_dictSet_self _ _ _
  have ht1 := hstepAdd _ _ hget0 (by simp)
  have hget1 : dictGet (toggle_favorite
        (register users (some "a@b.com") (some "al") (some "secret1") none fid).2
        (some "m1") (some fid)).2 fid
      = some { id := fid, email := "a@b.com", username := "al", img_url := "",
               password := generate_password_hash "secret1",
               favorites := ["m1"], watchlist := [], purchases := [] } := by
    rw [ht1]; exact dictGet_dictSet_self _ _ _
  have ht2 := hstepRem _ _ hget1 (by simp)
  have hget2 : dictGet (toggle_favorite (toggle_favorite
        (register users (some "a@b.com") (some "al") (some "secret1") none fid).2
        (some "m1") (some fid)).2 (some "m1") (some fid)).2 fid
      = some { id := fid, email := "a@b.com", username := "al", img_url := "",
               password := generate_password_hash "secret1",
               favorites := ["m1"].erase "m1", watchlist := [], purchases := [] } := by
    rw [ht2]; exact dictGet_dictSet_self _ _ _
  refine ⟨by rw [hreg], ?_, ⟨_, hget1, rfl⟩, ⟨_, hget2, by simp⟩⟩
  rw [hreg]
  simp [login, truthy, hfind, check_password_hash]

theorem register_login_toggle_example_witness :
    (register [] (some "a@b.com") (some "al") (some "secret1") none "uid-1").1
      = (Body.msgUser "Registration successful" "al" "uid-1", 201) :=
  (register_login_toggle_example [] "uid-1" (by decide)
    (fun p hp => absurd hp (List.not_mem_nil p))).1

theorem listsNodup_dictSet (d : Doc) (k : String) (v : UserRecord)
    (hd : listsNodup d)
    (hv : v.favorites.Nodup ∧ v.watchlist.Nodup ∧ v.purchases.Nodup) :
    listsNodup (dictSet d k v) := by
  intro p hp
  rcases mem_dictSet d k v p hp with rfl | hpd
  · exact hv
  · exact hd p hpd

theorem listsNodup_applyOp (users : Doc) (op : Op) (h : listsNodup users) :
    listsNodup (applyOp users op) := by
  cases op with
  | opLogin e p => exact h
  | opLogout => exact h
  | opAccount u => exact h
  | opUserLists u => exact h
  | opRegister e u p i f =>
    show listsNodup (register users e u p i f).2
    by_cases h1 : truthy e = true
    · by_cases h2 : truthy u = true
      · by_cases h3 : truthy p = true
        · by_cases h4 : (List.any users fun q => q.2.email == e.getD "") = true
          · simpa [register, h1, h2, h3, h4] using h
          · by_cases h5 : '@' ∈ (e.getD "").data
            · by_cases h6 : '.' ∈ (e.getD "").data
              · by_cases h7 : (p.getD "").length < 6
                · simpa [register, h1, h2, h3, h4, h5, h6, h7] using h
                · have hstep : (register users e u p i f).2
                      = dictSet users f
                          { id := f, email := e.getD "", username := u.getD "",
                            img_url := i.getD "",
                            password := generate_password_hash (p.getD ""),
                            favorites := [], watchlist := [], purchases := [] } := by
                    simp [register, h1, h2, h3, h4, h5, h6, h7]
                  rw [hstep]
                  exact listsNodup_dictSet _ _ _ h
                    ⟨List.nodup_nil, List.nodup_nil, List.nodup_nil⟩
              · simpa [register, h1, h2, h3, h4, h5, h6] using h
            · simpa [register, h1, h2, h3, h4, h5] using h
        · simpa [register, h1, h2, h3] using h
      · simpa [register, h1, h2] using h
    · simpa [register, h1] using h
  | opToggleFavorite m uo =>
    show listsNodup (toggle_favorite users m uo).2
    by_cases h1 : truthy m = true
    · by_cases h2 : truthy uo = true
      · cases hu : dictGet users (uo.getD "") with
        | none => simpa [toggle_favorite, h1, h2, hu] using h
        | some v =>
          have hv := h _ (dictGet_mem _ _ _ hu)
          by_cases hmem : (m.getD "") ∈ v.favorites
          · have hstep : (toggle_favorite users m uo).2
                = dictSet users (uo.getD "")
                    { v with favorites := v.favorites.erase (m.getD "") } := by
              simp [toggle_favorite, h1, h2, hu, hmem]
            rw [hstep]
            exact listsNodup_dictSet _ _ _ h ⟨hv.1.erase _, hv.2.1, hv.2.2⟩
          · have hstep : (toggle_favorite users m uo).2
                = dictSet users (uo.getD "")
                    { v with favorites := v.favorites ++ [m.getD ""] } := by
              simp [toggle_favorite, h1, h2, hu, hmem]
            rw [hstep]
            exact listsNodup_dictSet _ _ _ h
              ⟨nodup_append_singleton hmem hv.1, hv.2.1, hv.2.2⟩
      · simpa [toggle_favorite, h1, h2] using h
    · simpa [toggle_favorite, h1] using h
  | opToggleWatchlist m uo =>
    show listsNodup (toggle_watchlist users m uo).2
    by_cases h1 : truthy m = true
    · by_cases h2 : truthy uo = true
      · cases hu : dictGet users (uo.getD "") with
        | none => simpa [toggle_watchlist, h1, h2, hu] using h
        | some v =>
          have hv := h _ (dictGet_mem _ _ _ hu)
          by_cases hmem : (m.getD "") ∈ v.watchlist
          · have hstep : (toggle_watchlist users m uo).2
                = dictSet users (uo.getD "")
                    { v with watchlist := v.watchlist.erase (m.getD "") } := by
              simp [toggle_watchlist, h1, h2, hu, hmem]
            rw [hstep]
            exact listsNodup_dictSet _ _ _ h ⟨hv.1, hv.2.1.erase _, hv.2.2⟩
          · have hstep : (toggle_watchlist users m uo).2
                = dictSet users (uo.getD "")
                    { v with watchlist := v.watchlist ++ [m.getD ""] } := by
              simp [toggle_watchlist, h1, h2, hu, hmem]
            rw [hstep]
            exact listsNodup_dictSet _ _ _ h
              ⟨hv.1, nodup_append_singleton hmem hv.2.1, hv.2.2⟩
      · simpa [toggle_watchlist, h1, h2] using h
    · simpa [toggle_watchlist, h1] using h
  | opAddPurchase m uo =>
    show listsNodup (add_purchase users m uo).2
    by_cases h1 : truthy m = true
    · by_cases h2 : truthy uo = true
      · cases hu : dictGet users (uo.getD "") with
        | none => simpa [add_purchase, h1, h2, hu] using h
        | some v =>
          have hv := h _ (dictGet_mem _ _ _ hu)
          by_cases hmem : (m.getD "") ∈ v.purchases
          · simpa [add_purchase, h1, h2, hu, hmem] using h
          · have hstep : (add_purchase users m uo).2
                = dictSet users (uo.getD "")
                    { v with purchases := v.purchases ++ [m.getD ""] } := by
              simp [add_purchase, h1, h2, hu, hmem]
            rw [hstep]
            exact listsNodup_dictSet _ _ _ h
              ⟨hv.1, hv.2.1, nodup_append_singleton hmem hv.2.2⟩
      · simpa [add_purchase, h1, h2] using h
    · simpa [add_purchase, h1] using h
  | opUpdateProfile uo io =>
    show listsNodup (update_profile users uo io).2
    by_cases h1 : truthy uo = true
    · by_cases h2 : truthy io = true
      · cases hu : dictGet users (uo.getD "") with
        | none => simpa [update_profile, h1, h2, hu] using h
        | some v =>
          have hv := h _ (dictGet_mem _ _ _ hu)
          have hstep : (update_profile users uo io).2
              = dictSet users (uo.getD "") { v with img_url := io.getD "" } := by
            simp [update_profile, h1, h2, hu]
          rw [hstep]
          exact listsNodup_dictSet _ _ _ h ⟨hv.1, hv.2.1, hv.2.2⟩
      · simpa [update_profile, h1, h2] using h
    · simpa [update_profile, h1] using h

/-- C7: in every document reachable from the empty document by any sequence
of service operations, every user record's favorites, watchlist and
purchases lists are free of duplicates. -/
theorem reachable_lists_nodup (ops : List Op) : listsNodup (runOps ops) := by
  have key : ∀ (l : List Op) (d : Doc), listsNodup d →
      listsNodup (l.foldl applyOp d) := by
    intro l
    induction l with
    | nil => intro d hd; exact hd
    | cons op rest ih =>
      intro d hd
      exact ih _ (listsNodup_applyOp d op hd)
  exact key ops [] (fun p hp => absurd hp (List.not_mem_nil p))

theorem reachable_lists_nodup_witness :
    listsNodup (runOps
      [Op.opRegister (some "a@b.com") (some "al") (some "secret1") none "u1",
       Op.opToggleFavorite (some "m1") (some "u1"),
       Op.opAddPurchase (some "m2") (some "u1")]) :=
  reachable_lists_nodup
    [Op.opRegister (some "a@b.com") (some "al") (some "secret1") none "u1",
     Op.opToggleFavorite (some "m1") (some "u1"),
     Op.opAddPurchase (some "m2") (some "u1")]

/-- C8 counterexample: a backing file whose contents parse as the JSON
number `5` is present and parsable, yet `read_users_data` raises an
uncaught `TypeError` at the `"users" not in data` check (only
`FileNotFoundError` and `JSONDecodeError` are caught), so `load()` can
fail and does not return the stored document. -/
theorem read_users_data_counterexample :
    read_users_data (FileState.valid (Json.num 5))
      = Except.error "TypeError: argument is not iterable" := rfl

/-- C8 (amended): `read_users_data` returns the empty document
`{users: {}}` when the backing file is absent or its contents are not
parsable JSON; when the contents parse to a JSON object it returns that
document, first adding a `users: {}` entry when the key is missing.  For
parsable non-object JSON (for example a bare number) the `users`-key check
or assignment raises an uncaught TypeError, so in those cases load() fails
rather than returning a document. -/
theorem read_users_data_fail_open (fields : List (String × Json)) :
    read_users_data FileState.absent = Except.ok emptyUsersDoc ∧
    read_users_data FileState.unparsable = Except.ok emptyUsersDoc ∧
    ((fields.any fun p => p.1 == "users") = true →
      read_users_data (FileState.valid (Json.obj fields))
        = Except.ok (Json.obj fields)) ∧
    ((fields.any fun p => p.1 == "users") = false →
      read_users_data (FileState.valid (Json.obj fields))
        = Except.ok (Json.obj (fields ++ [("users", Json.obj [])]))) := by
  refine ⟨rfl, rfl, ?_, ?_⟩
  · intro hmem
    simp [read_users_data, pyContainsUsers, hmem]
  · intro hmem
    simp [read_users_data, pyContainsUsers, hmem]

theorem read_users_data_fail_open_witness :
    read_users_data (FileState.valid (Json.obj [("users", Json.obj [])]))
      = Except.ok (Json.obj [("users", Json.obj [])]) :=
  (read_users_data_fail_open [("users", Json.obj [])]).2.2.1 (by simp)

end MovieBackend
